import Mathlib

/-!
Verification of the Thumbnail-Generator pipeline against its specification.

The definitions below are a shallow embedding of the TypeScript source:
  * `server/models/Job.ts`            — the job schema and its status enum;
  * `src/worker/thumbnailProcessor.ts` — `processThumbnailJob`,
    `processImageThumbnail`, `processVideoThumbnail`, `extractVideoFrame`;
  * `src/worker/index.ts`             — the BullMQ worker's `processJob`;
  * `server/routes/thumbnails.ts`     — the job inspection / delete / retry routes;
  * `server/routes/upload.ts`         — `POST /files/multiple`;
  * `server/config/config.ts`         — the CONFIG constants.

External effects (filesystem, sharp, ffmpeg, Mongo) are modelled by explicit
outcome parameters fed to the embedded control flow; database writes become
explicit record updates; every emitted progress value and published event is
collected into a trace list.
-/

namespace ThumbGen

/-- The five job statuses of `jobSchema` in `server/models/Job.ts`. -/
inductive JobStatus
  | pending
  | queued
  | processing
  | completed
  | failed
deriving DecidableEq, Repr

/-- Modelled from the spec (§3 invariant 1): the status-transition DAG
`pending → queued → processing → completed or failed`, plus
`pending → failed` and `queued → failed`.  The source has no corresponding
definition; this spec-side predicate exists only to be compared against the
embedded status updates. -/
def specDagEdge : JobStatus → JobStatus → Bool
  | .pending, .queued => true
  | .queued, .processing => true
  | .processing, .completed => true
  | .processing, .failed => true
  | .pending, .failed => true
  | .queued, .failed => true
  | _, _ => false

/-- The mutable fields of a job document (`jobSchema`).  Thumbnail references
are identifiers; timestamps are abstract `Nat` instants. -/
structure JobRec where
  status : JobStatus
  progress : Nat
  thumbnails : List Nat
  error : Option String
  startedAt : Option Nat
  completedAt : Option Nat
deriving DecidableEq, Repr

/-- A freshly created job (`new Job({status: 'pending', progress: 0, ...})`
in `server/routes/upload.ts`). -/
def freshJob : JobRec :=
  { status := .pending, progress := 0, thumbnails := [], error := none,
    startedAt := none, completedAt := none }

/-- An update object as passed to `Job.findByIdAndUpdate` by the worker and
queue code.  A field set to `none` is absent from the update object and left
untouched; `pushThumbnail` models a `push` onto `thumbnails`. -/
structure UpdatePatch where
  status : JobStatus
  progress : Option Nat := none
  error : Option String := none
  startedAt : Option Nat := none
  completedAt : Option Nat := none
  pushThumbnail : Option Nat := none
deriving Repr

/-- `Job.findByIdAndUpdate(jobId, patch)` as the source uses it: the patch is
applied to the document unconditionally — no transition check of any kind is
performed and no update is ever rejected. -/
def findByIdAndUpdate (j : JobRec) (p : UpdatePatch) : JobRec :=
  { status := p.status
    progress := p.progress.getD j.progress
    thumbnails := j.thumbnails ++ (p.pushThumbnail.map (fun i => [i])).getD []
    error := match p.error with | some e => some e | none => j.error
    startedAt := match p.startedAt with | some t => some t | none => j.startedAt
    completedAt := match p.completedAt with | some t => some t | none => j.completedAt }

/-! ### CONFIG constants (`server/config/config.ts`) -/

/-- `CONFIG.THUMBNAIL_SIZE` (128). -/
def THUMBNAIL_SIZE : Nat := 128

/-- `CONFIG.THUMBNAIL_QUALITY` (80). -/
def THUMBNAIL_QUALITY : Nat := 80

/-- `CONFIG.VIDEO_THUMBNAIL_TIME` (`00:00:01`). -/
def VIDEO_THUMBNAIL_TIME : String := "00:00:01"

/-- `CONFIG.MAX_FILE_SIZE` (104857600 bytes = 100 MiB). -/
def MAX_FILE_SIZE : Nat := 104857600

/-- `CONFIG.ALLOWED_IMAGE_TYPES`. -/
def ALLOWED_IMAGE_TYPES : List String :=
  ["image/jpeg", "image/jpg", "image/png", "image/gif", "image/webp"]

/-- `CONFIG.ALLOWED_VIDEO_TYPES`. -/
def ALLOWED_VIDEO_TYPES : List String :=
  ["video/mp4", "video/avi", "video/mov", "video/quicktime", "video/wmv",
   "video/flv", "video/webm"]

/-! ### Video frame extraction (`extractVideoFrame` in `thumbnailProcessor.ts`) -/

/-- The argument list handed to `spawn(CONFIG.FFMPEG_PATH, ffmpegArgs)`. -/
def ffmpegArgs (inputPath outputPath : String) : List String :=
  ["-i", inputPath,
   "-ss", VIDEO_THUMBNAIL_TIME,
   "-vframes", "1",
   "-f", "image2",
   "-y",
   outputPath]

/-- The hard timeout (ms) armed around the ffmpeg subprocess. -/
def FFMPEG_TIMEOUT_MS : Nat := 60000

/-- How one run of the external ffmpeg subprocess ends, as seen by
`extractVideoFrame`: it closes with an exit code (having accumulated some
stderr text) before the 60 s timer fires, it is still running when the
timer fires, or spawning it fails outright. -/
inductive FfmpegRun
  | exited (code : Nat) (stderrText : String)
  | timedOut
  | spawnFailed (msg : String)
deriving DecidableEq, Repr

/-- What `extractVideoFrame` settles its promise with, plus whether it killed
the subprocess. -/
structure FfmpegResult where
  outcome : Except String Unit
  killed : Bool
deriving Repr

/-- `extractVideoFrame`'s settlement logic: exit code 0 resolves; a non-zero
exit code rejects with a message carrying the subprocess stderr; the 60 s
timer kills the process (SIGKILL) and rejects with the timeout message;
a spawn error rejects with the spawn message. -/
def extractVideoFrame : FfmpegRun → FfmpegResult
  | .exited 0 _ => ⟨.ok (), false⟩
  | .exited (c + 1) stderrText =>
      ⟨.error ("FFmpeg process exited with code " ++ toString (c + 1) ++ ": "
        ++ stderrText), false⟩
  | .timedOut => ⟨.error "FFmpeg process timed out after 60 seconds", true⟩
  | .spawnFailed msg =>
      ⟨.error ("FFmpeg spawn error: " ++ msg
        ++ ". Make sure FFmpeg is installed and accessible."), false⟩

/-! ### Image path (`processImageThumbnail`) -/

/-- The two output encodings the image path can select. -/
inductive OutFormat
  | jpeg
  | png
deriving DecidableEq, Repr

/-- `metadata.format === 'jpeg' || metadata.format === 'jpg' ? 'jpeg' : 'png'`. -/
def outputFormatOf (metadataFormat : String) : OutFormat :=
  if metadataFormat = "jpeg" ∨ metadataFormat = "jpg" then .jpeg else .png

/-- The extension used in `thumb_<uuid>.<ext>`. -/
def outputExt : OutFormat → String
  | .jpeg => "jpg"
  | .png => "png"

/-- The options passed to `sharp(...).resize(...)`. -/
structure ResizeOpts where
  width : Nat
  height : Nat
  fit : String
  position : String
deriving DecidableEq, Repr

/-- The resize call of both the image and the video path:
`resize(CONFIG.THUMBNAIL_SIZE, CONFIG.THUMBNAIL_SIZE, {fit:'cover', position:'center'})`. -/
def resizeOpts : ResizeOpts :=
  { width := THUMBNAIL_SIZE, height := THUMBNAIL_SIZE,
    fit := "cover", position := "center" }

/-- Options of a `.jpeg({...})` encode call. -/
structure JpegOpts where
  quality : Nat
  progressive : Bool
  mozjpeg : Bool
deriving DecidableEq, Repr

/-- Options of a `.png({...})` encode call. -/
structure PngOpts where
  compressionLevel : Nat
  progressive : Bool
deriving DecidableEq, Repr

/-- The encode stage appended to the sharp pipeline. -/
inductive EncodeOpts
  | jpeg (o : JpegOpts)
  | png (o : PngOpts)
deriving DecidableEq, Repr

/-- The format-specific encode the image path applies: JPEG gets
`{quality: CONFIG.THUMBNAIL_QUALITY, progressive: true, mozjpeg: true}`,
PNG gets `{compressionLevel: 9, progressive: true}`. -/
def encodeOptsOf : OutFormat → EncodeOpts
  | .jpeg => .jpeg { quality := THUMBNAIL_QUALITY, progressive := true, mozjpeg := true }
  | .png => .png { compressionLevel := 9, progressive := true }

/-- External outcomes driving one run of `processImageThumbnail`:
does the input file exist, what `sharp.metadata()` yields (error or the
probed format string), whether the `toFile` write succeeds, and the byte
size `fs.promises.stat` reports for the written output. -/
structure ImageEnv where
  inputExists : Bool
  probe : Except String String
  encodeWrite : Except String Unit
  writtenSize : Nat
deriving Repr

/-- A successful image-path result: the chosen format and the size of the
file on disk. -/
structure ImageOut where
  format : OutFormat
  size : Nat
deriving DecidableEq, Repr

/-- `processImageThumbnail`, as progress calls plus result.  In source order:
`updateProgress(40)`; input-existence check; `metadata()` probe; format
selection; resize+encode `toFile`; `updateProgress(80)`; `stat` and the
zero-size check (`throw 'Generated thumbnail file is empty'`).  Every thrown
message is re-wrapped by the surrounding catch as
`Failed to process image thumbnail: <msg>`. -/
def processImageThumbnail (inputPath : String) (env : ImageEnv) :
    List Nat × Except String ImageOut :=
  let wrap := fun m => "Failed to process image thumbnail: " ++ m
  if !env.inputExists then
    ([40], .error (wrap ("Input file not found: " ++ inputPath)))
  else
    match env.probe with
    | .error e => ([40], .error (wrap e))
    | .ok fmt =>
      match env.encodeWrite with
      | .error e => ([40], .error (wrap e))
      | .ok _ =>
        if env.writtenSize = 0 then
          ([40, 80], .error (wrap "Generated thumbnail file is empty"))
        else
          ([40, 80], .ok { format := outputFormatOf fmt, size := env.writtenSize })

/-! ### Video path (`processVideoThumbnail`) -/

/-- External outcomes driving one run of `processVideoThumbnail`: how the
ffmpeg subprocess run ends, whether the sharp resize `toFile` on the
temporary frame succeeds, the byte size of the written output, and whether
deleting the temporary frame succeeds (a failure there only warns). -/
structure VideoEnv where
  ffmpeg : FfmpegRun
  resizeWrite : Except String Unit
  writtenSize : Nat
  cleanupOk : Bool
deriving Repr

/-- A successful video-path result: always JPEG; carries the size of the
file on disk (which the code never inspects). -/
structure VideoOut where
  format : OutFormat
  size : Nat
deriving DecidableEq, Repr

/-- `processVideoThumbnail`, as progress calls plus result.  In source order:
`updateProgress(40)`; `extractVideoFrame`; `updateProgress(60)`; sharp
resize + `.jpeg({quality, progressive})` `toFile`; `updateProgress(80)`;
temp-file cleanup (warn only).  No output-size check is performed.  Thrown
messages are re-wrapped as `Failed to process video thumbnail: <msg>`. -/
def processVideoThumbnail (env : VideoEnv) : List Nat × Except String VideoOut :=
  let wrap := fun m => "Failed to process video thumbnail: " ++ m
  match (extractVideoFrame env.ffmpeg).outcome with
  | .error e => ([40], .error (wrap e))
  | .ok _ =>
    match env.resizeWrite with
    | .error e => ([40, 60], .error (wrap e))
    | .ok _ => ([40, 60, 80], .ok { format := .jpeg, size := env.writtenSize })

/-! ### One processing attempt (`processThumbnailJob` plus the worker wrapper) -/

/-- The `fileType` field of the queue payload. -/
inductive FileKind
  | image
  | video
  | other (s : String)
deriving DecidableEq, Repr

/-- All external outcomes and data for one attempt of `processThumbnailJob`:
the `ensureDirectory` outcome, the payload's `filePath` and `fileType`, the
image/video sub-path environments, the basename of the generated thumbnail,
the current wall-clock instant, and the id Mongo assigns the saved
`Thumbnail` document. -/
structure AttemptEnv where
  dirOutcome : Except String Unit
  filePath : String
  kind : FileKind
  image : ImageEnv
  video : VideoEnv
  thumbFilename : String
  now : Nat
  thumbId : Nat
deriving Repr

/-- What one attempt produced: the `updateProgress` values reported inside
`processThumbnailJob`, the promise result (thumbnail URL list or the thrown
error message), and the job document after the attempt's database writes. -/
structure AttemptOut where
  progressCalls : List Nat
  result : Except String (List String)
  record : JobRec
deriving Repr

/-- `processThumbnailJob` from `src/worker/thumbnailProcessor.ts`, acting on
the job document `j`.  In source order: `updateProgress(20)`;
`ensureDirectory`; `findByIdAndUpdate {status:'processing', startedAt}`
(the prior `error` is NOT touched); `updateProgress(30)`; the image or
video sub-path; `updateProgress(90)`; `Thumbnail` save; `findByIdAndUpdate
{status:'completed', progress:100, completedAt, push thumbnails}`;
`updateProgress(100)`.  The catch block writes `findByIdAndUpdate
{status:'failed', error, completedAt}` and rethrows. -/
def processThumbnailJob (env : AttemptEnv) (j : JobRec) : AttemptOut :=
  let fail := fun (calls : List Nat) (rec : JobRec) (e : String) =>
    AttemptOut.mk calls (.error e)
      (findByIdAndUpdate rec
        { status := .failed, error := some e, completedAt := some env.now })
  match env.dirOutcome with
  | .error e => fail [20] j e
  | .ok _ =>
    let j1 := findByIdAndUpdate j { status := .processing, startedAt := some env.now }
    let finish := fun (calls : List Nat) =>
      let url := "/uploads/thumbnails/" ++ env.thumbFilename
      AttemptOut.mk (calls ++ [90, 100]) (.ok [url])
        (findByIdAndUpdate j1
          { status := .completed, progress := some 100,
            completedAt := some env.now, pushThumbnail := some env.thumbId })
    match env.kind with
    | .image =>
      match processImageThumbnail env.filePath env.image with
      | (ps, .error e) => fail (20 :: 30 :: ps) j1 e
      | (ps, .ok _) => finish (20 :: 30 :: ps)
    | .video =>
      match processVideoThumbnail env.video with
      | (ps, .error e) => fail (20 :: 30 :: ps) j1 e
      | (ps, .ok _) => finish (20 :: 30 :: ps)
    | .other s => fail [20, 30] j1 ("Unsupported file type: " ++ s)

/-- A published pipeline event: `job-active`, `job-progress`, `job-completed`
or `job-failed`. -/
inductive Ev
  | active
  | progress (n : Nat)
  | completed (urls : List String)
  | failed (msg : String)
deriving DecidableEq, Repr

/-- One worker attempt as the event trace visible on the bus: the queue emits
`active` on reservation; the worker's `processJob` reports
`updateProgress(10)` and then runs `processThumbnailJob`, every
`updateProgress` surfacing as a `progress` event; the terminal queue event
is `completed` with the returned URL list, or `failed` with the error. -/
def workerAttemptEvents (env : AttemptEnv) (j : JobRec) : List Ev × JobRec :=
  let a := processThumbnailJob env j
  (Ev.active :: ((10 :: a.progressCalls).map Ev.progress ++
    (match a.result with
     | .ok urls => [Ev.completed urls]
     | .error e => [Ev.failed e])), a.record)

/-! ### Routes (`server/routes/thumbnails.ts`) -/

/-- A stored job document with its identity and owner. -/
structure RouteJob where
  id : Nat
  userId : String
  doc : JobRec
deriving DecidableEq, Repr

/-- A stored `Thumbnail` document (identity and owning job). -/
structure ThumbDoc where
  id : Nat
  jobId : Nat
deriving DecidableEq, Repr

/-- Server-side persistent state touched by the job routes: the job and
thumbnail collections and the processing queue's pending entries. -/
structure ServerState where
  jobs : List RouteJob
  thumbs : List ThumbDoc
  queue : List Nat
deriving DecidableEq, Repr

/-- An HTTP reply (status code, success flag, error or message text). -/
structure Resp where
  statusCode : Nat
  success : Bool
  message : String
deriving DecidableEq, Repr

/-- `Job.findOne({ _id: jobId, userId })`. -/
def findOneByIdAndUser (st : ServerState) (jobId : Nat) (uid : String) :
    Option RouteJob :=
  st.jobs.find? (fun j => j.id == jobId && j.userId == uid)

/-- The 404 reply shared by the job routes. -/
def notFoundResp : Resp := ⟨404, false, "Job not found"⟩

/-- `GET /jobs/:jobId`: ownership-scoped lookup; 404 when no job matches
both the id and the authenticated user; reads only. -/
def getJobRoute (uid : String) (jobId : Nat) (st : ServerState) :
    Resp × ServerState :=
  match findOneByIdAndUser st jobId uid with
  | none => (notFoundResp, st)
  | some _ => (⟨200, true, ""⟩, st)

/-- `DELETE /jobs/:jobId`: ownership-scoped lookup, then
`Thumbnail.deleteMany({jobId})` and `Job.findByIdAndDelete(jobId)`. -/
def deleteJobRoute (uid : String) (jobId : Nat) (st : ServerState) :
    Resp × ServerState :=
  match findOneByIdAndUser st jobId uid with
  | none => (notFoundResp, st)
  | some _ =>
    (⟨200, true, "Job deleted successfully"⟩,
      { st with
        jobs := st.jobs.filter (fun x => x.id != jobId),
        thumbs := st.thumbs.filter (fun t => t.jobId != jobId) })

/-- The field resets the retry route applies to a failed job:
`status='pending'; progress=0; error=startedAt=completedAt=undefined`. -/
def resetJobRec (r : JobRec) : JobRec :=
  { r with status := .pending, progress := 0, error := none,
           startedAt := none, completedAt := none }

/-- `POST /jobs/:jobId/retry`: ownership-scoped lookup (404 otherwise);
400 unless the job's status is `failed`; on success the job fields are
reset and saved, and the route replies `Job queued for retry` — but the
`addThumbnailJob` call is commented out in the source, so the queue is
left untouched. -/
def retryJobRoute (uid : String) (jobId : Nat) (st : ServerState) :
    Resp × ServerState :=
  match findOneByIdAndUser st jobId uid with
  | none => (notFoundResp, st)
  | some j =>
    if j.doc.status = JobStatus.failed then
      (⟨200, true, "Job queued for retry"⟩,
        { st with
          jobs := st.jobs.map (fun x =>
            if x.id == jobId then { x with doc := resetJobRec x.doc } else x),
          queue := st.queue })
    else
      (⟨400, false, "Only failed jobs can be retried"⟩, st)

/-! ### Multiple-file upload (`POST /files/multiple` in `server/routes/upload.ts`) -/

/-- One multipart file part, together with the uuid-based name the route
generates for it and the byte size it has on disk after saving. -/
structure UploadPart where
  filename : String
  mimetype : String
  uniqueName : String
  savedSize : Nat
deriving DecidableEq, Repr

/-- ASCII lower-casing of one character, the per-character behaviour of
JavaScript `toLowerCase()` on the ASCII MIME strings involved. -/
def lowerChar (c : Char) : Char :=
  if 65 ≤ c.toNat ∧ c.toNat ≤ 90 then Char.ofNat (c.toNat + 32) else c

/-- `s.toLowerCase()` on an ASCII string. -/
def lowerStr (s : String) : String := ⟨s.data.map lowerChar⟩

/-- Case-insensitive membership in `CONFIG.ALLOWED_IMAGE_TYPES`
(`type.toLowerCase() === normalizedMimeType` where `normalizedMimeType` is
the part's lower-cased MIME type). -/
def isAllowedImage (m : String) : Bool :=
  ALLOWED_IMAGE_TYPES.any (fun t => lowerStr t == lowerStr m)

/-- Case-insensitive membership in `CONFIG.ALLOWED_VIDEO_TYPES`. -/
def isAllowedVideo (m : String) : Bool :=
  ALLOWED_VIDEO_TYPES.any (fun t => lowerStr t == lowerStr m)

/-- The route's whitelist test: the part is an allowed image or video. -/
def typeOk (p : UploadPart) : Bool :=
  isAllowedImage p.mimetype || isAllowedVideo p.mimetype

/-- A part survives the loop when its MIME type is whitelisted and its
on-disk size does not exceed `CONFIG.MAX_FILE_SIZE`. -/
def acceptPart (p : UploadPart) : Bool :=
  typeOk p && decide (p.savedSize ≤ MAX_FILE_SIZE)

/-- One entry of the route's `uploadedJobs` response array (the job is
created `pending`, enqueued, then saved as `queued`). -/
structure JobEntry where
  filename : String
  fileSize : Nat
  status : JobStatus
deriving DecidableEq, Repr

/-- The response entry built for an accepted part. -/
def mkEntry (p : UploadPart) : JobEntry :=
  { filename := p.filename, fileSize := p.savedSize, status := .queued }

/-- A filesystem action the upload loop performs in the upload directory. -/
inductive DiskOp
  | save (name : String)
  | unlink (name : String)
deriving DecidableEq, Repr

/-- The `for await` body of `POST /files/multiple` over all parts, collecting
the `uploadedJobs` entries and the disk actions in order: a part with a
non-whitelisted MIME type is skipped before any disk write (`continue`);
a saved part whose on-disk size exceeds `CONFIG.MAX_FILE_SIZE` is unlinked
and skipped (`continue`); an accepted part is saved, recorded, and its job
enqueued. -/
def multipleUploadLoop : List UploadPart → List JobEntry × List DiskOp
  | [] => ([], [])
  | p :: rest =>
    let out := multipleUploadLoop rest
    if !typeOk p then out
    else if MAX_FILE_SIZE < p.savedSize then
      (out.1, DiskOp.save p.uniqueName :: DiskOp.unlink p.uniqueName :: out.2)
    else
      (mkEntry p :: out.1, DiskOp.save p.uniqueName :: out.2)

/-- The route's final reply: 201 with the accepted jobs and
`<n> files uploaded successfully`. -/
def multipleUploadResp (parts : List UploadPart) : Resp :=
  ⟨201, true,
    toString (multipleUploadLoop parts).1.length ++ " files uploaded successfully"⟩

/-- Replaying a list of disk actions over the set of stored names:
`save` writes the file, `unlink` removes it. -/
def applyOps : List String → List DiskOp → List String
  | disk, [] => disk
  | disk, DiskOp.save n :: rest => applyOps (disk ++ [n]) rest
  | disk, DiskOp.unlink n :: rest => applyOps (disk.filter (fun m => m != n)) rest

/-! ### Concrete instances used in counterexamples and witnesses -/

/-- A fully successful image-path attempt environment: output directory ok,
input exists, probe yields `fmt`, the write succeeds and the written file
has positive size `sz`. -/
def happyImageEnv (name fmt : String) (sz : Nat) : AttemptEnv :=
  { dirOutcome := .ok (), filePath := "/uploads/in.jpg", kind := .image,
    image := { inputExists := true, probe := .ok fmt, encodeWrite := .ok (),
               writtenSize := sz },
    video := { ffmpeg := .exited 0 "", resizeWrite := .ok (), writtenSize := sz,
               cleanupOk := true },
    thumbFilename := name, now := 5, thumbId := 7 }

/-- A first video attempt whose ffmpeg subprocess exits with code 1. -/
def failVideoEnv : AttemptEnv :=
  { dirOutcome := .ok (), filePath := "/uploads/v.mp4", kind := .video,
    image := { inputExists := true, probe := .ok "jpeg", encodeWrite := .ok (),
               writtenSize := 1 },
    video := { ffmpeg := .exited 1 "boom", resizeWrite := .ok (), writtenSize := 1,
               cleanupOk := true },
    thumbFilename := "t1.jpg", now := 3, thumbId := 7 }

/-- The retried video attempt, now fully successful. -/
def retrySuccessEnv : AttemptEnv :=
  { dirOutcome := .ok (), filePath := "/uploads/v.mp4", kind := .video,
    image := { inputExists := true, probe := .ok "jpeg", encodeWrite := .ok (),
               writtenSize := 1 },
    video := { ffmpeg := .exited 0 "", resizeWrite := .ok (), writtenSize := 9,
               cleanupOk := true },
    thumbFilename := "t2.jpg", now := 9, thumbId := 8 }

/-- A job document sitting in a terminal `completed` state. -/
def completedJobEx : JobRec :=
  { status := .completed, progress := 100, thumbnails := [1], error := none,
    startedAt := some 1, completedAt := some 2 }

/-- A stored failed job owned by user `alice`. -/
def failedRouteJob : RouteJob :=
  { id := 1, userId := "alice",
    doc := { status := .failed, progress := 0, thumbnails := [], error := some "boom",
             startedAt := some 1, completedAt := some 2 } }

/-- Server state holding exactly `failedRouteJob`, with an empty queue. -/
def retryState : ServerState := { jobs := [failedRouteJob], thumbs := [], queue := [] }

/-- An accepted small JPEG part. -/
def partA : UploadPart :=
  { filename := "a.jpg", mimetype := "image/jpeg", uniqueName := "u1.jpg", savedSize := 10 }

/-- A part with a MIME type outside the whitelist. -/
def partB : UploadPart :=
  { filename := "b.exe", mimetype := "application/octet-stream", uniqueName := "u2.exe",
    savedSize := 10 }

/-- A whitelisted part whose on-disk size exceeds `MAX_FILE_SIZE`. -/
def partC : UploadPart :=
  { filename := "c.png", mimetype := "image/png", uniqueName := "u3.png",
    savedSize := 104857601 }

/-! ## Theorems -/

/-- Claim C1, counterexample: the store performs no transition validation.
Updating a `completed` job back to `pending` is not an edge of the §3 DAG,
yet `findByIdAndUpdate` applies it and changes the record — it neither
fails with `InvalidTransition` nor leaves the job unchanged. -/
theorem C1_counterexample :
    specDagEdge JobStatus.completed JobStatus.pending = false ∧
    (findByIdAndUpdate completedJobEx { status := .pending }).status = JobStatus.pending ∧
    findByIdAndUpdate completedJobEx { status := .pending } ≠ completedJobEx := by
  refine ⟨rfl, rfl, ?_⟩
  decide

/-- Claim C1 as amended: status updates issued through the store
(`Job.findByIdAndUpdate`) are applied unconditionally; even when the
transition from the job's current status to the new status is not an edge
of the §3 DAG, the update succeeds and the job's status becomes the
requested one, and no `InvalidTransition` failure exists. -/
theorem C1_amended_no_transition_check (j : JobRec) (p : UpdatePatch)
    (h : specDagEdge j.status p.status = false) :
    (findByIdAndUpdate j p).status = p.status := rfl

/-- Witness for `C1_amended_no_transition_check` at the illegal transition
`completed → pending`. -/
theorem C1_amended_no_transition_check_witness :
    (findByIdAndUpdate completedJobEx { status := .pending }).status = JobStatus.pending :=
  C1_amended_no_transition_check completedJobEx { status := .pending } (by decide)

/-- Claim C5, counterexample: the video path performs no output-size
verification.  With the frame extraction and the resize both succeeding but
a zero-byte file written, `processVideoThumbnail` still returns success —
a zero-byte file surfaces as a completed thumbnail, with no `EmptyOutput`
failure. -/
theorem C5_counterexample :
    processVideoThumbnail
        { ffmpeg := .exited 0 "", resizeWrite := .ok (), writtenSize := 0,
          cleanupOk := true } =
      ([40, 60, 80], .ok { format := .jpeg, size := 0 }) := rfl

/-- Claim C5 as amended: only the image path verifies after writing that the
output file's size is greater than 0 and fails (with `Generated thumbnail
file is empty`) when the written file is zero bytes; the video path performs
no such check and succeeds even when the written file is zero bytes. -/
theorem C5_amended_size_check_image_only (inp fmt s : String) (n : Nat) :
    (processImageThumbnail inp
        { inputExists := true, probe := .ok fmt, encodeWrite := .ok (),
          writtenSize := 0 }).2 =
      .error "Failed to process image thumbnail: Generated thumbnail file is empty" ∧
    (processImageThumbnail inp
        { inputExists := true, probe := .ok fmt, encodeWrite := .ok (),
          writtenSize := n + 1 }).2 =
      .ok { format := outputFormatOf fmt, size := n + 1 } ∧
    (processVideoThumbnail
        { ffmpeg := .exited 0 s, resizeWrite := .ok (), writtenSize := n,
          cleanupOk := true }).2 =
      .ok { format := .jpeg, size := n } := by
  refine ⟨rfl, ?_, rfl⟩
  simp [processImageThumbnail]

/-- Claim C6: the frame-extraction subprocess is invoked with exactly the
arguments `-i <input> -ss <configured time> -vframes 1 -f image2 -y
<output>` in that order; exit code 0 resolves; a non-zero exit code fails
with an error carrying the subprocess stderr; when the 60-second
(`60000` ms) timer fires the process is killed and the call fails with the
timeout error. -/
theorem C6_ffmpeg_invocation (inp outp s : String) (c : Nat) :
    ffmpegArgs inp outp =
      ["-i", inp, "-ss", "00:00:01", "-vframes", "1", "-f", "image2", "-y", outp] ∧
    (extractVideoFrame (.exited 0 s)).outcome = .ok () ∧
    (extractVideoFrame (.exited 0 s)).killed = false ∧
    (extractVideoFrame (.exited (c + 1) s)).outcome =
      .error ("FFmpeg process exited with code " ++ toString (c + 1) ++ ": " ++ s) ∧
    (extractVideoFrame (.exited (c + 1) s)).killed = false ∧
    (extractVideoFrame .timedOut).outcome =
      .error "FFmpeg process timed out after 60 seconds" ∧
    (extractVideoFrame .timedOut).killed = true ∧
    FFMPEG_TIMEOUT_MS = 60000 :=
  ⟨rfl, rfl, rfl, rfl, rfl, rfl, rfl, rfl⟩

/-- Claim C7: the image path selects the output encoding from the probed
format — `jpeg`/`jpg` inputs yield JPEG output encoded with quality 80,
progressive, mozjpeg, and every other probed format yields PNG output with
maximum compression (level 9), progressive — and the resize uses
fit `cover`, position `center`, to a `THUMBNAIL_SIZE × THUMBNAIL_SIZE`
(128 × 128) square. -/
theorem C7_format_selection_and_encode (fmt : String) :
    (fmt = "jpeg" ∨ fmt = "jpg" →
      outputFormatOf fmt = OutFormat.jpeg ∧
      encodeOptsOf (outputFormatOf fmt) =
        EncodeOpts.jpeg { quality := 80, progressive := true, mozjpeg := true } ∧
      outputExt (outputFormatOf fmt) = "jpg") ∧
    (¬(fmt = "jpeg" ∨ fmt = "jpg") →
      outputFormatOf fmt = OutFormat.png ∧
      encodeOptsOf (outputFormatOf fmt) =
        EncodeOpts.png { compressionLevel := 9, progressive := true } ∧
      outputExt (outputFormatOf fmt) = "png") ∧
    resizeOpts =
      { width := 128, height := 128, fit := "cover", position := "center" } := by
  refine ⟨fun h => ?_, fun h => ?_, rfl⟩
  · rw [outputFormatOf, if_pos h]
    exact ⟨rfl, rfl, rfl⟩
  · rw [outputFormatOf, if_neg h]
    exact ⟨rfl, rfl, rfl⟩

/-- Witness for `C7_format_selection_and_encode` at a JPEG-variant input
(`jpeg`) and a non-JPEG input (`webp`). -/
theorem C7_format_selection_and_encode_witness :
    outputFormatOf "jpeg" = OutFormat.jpeg ∧ outputFormatOf "webp" = OutFormat.png :=
  ⟨((C7_format_selection_and_encode "jpeg").1 (Or.inl rfl)).1,
   ((C7_format_selection_and_encode "webp").2.1 (by decide)).1⟩

/-- Claim C4, counterexample: the happy image path emits `progress(20)`
(and also 30 and 90) strictly between `active` and `completed`, so its
event sequence is not the claimed
`active, progress(10), progress(40), progress(80), progress(100), completed`. -/
theorem C4_counterexample :
    Ev.progress 20 ∈ (workerAttemptEvents (happyImageEnv "t.jpg" "jpeg" 100) freshJob).1 ∧
    (workerAttemptEvents (happyImageEnv "t.jpg" "jpeg" 100) freshJob).1 ≠
      [Ev.active, Ev.progress 10, Ev.progress 40, Ev.progress 80, Ev.progress 100,
       Ev.completed ["/uploads/thumbnails/t.jpg"]] := by
  constructor
  · simp [workerAttemptEvents, processThumbnailJob, happyImageEnv, processImageThumbnail]
  · decide

/-- Claim C4 as amended: for a successfully processed image job the emitted
event sequence is exactly `active`, `progress(10)`, `progress(20)`,
`progress(30)`, `progress(40)`, `progress(80)`, `progress(90)`,
`progress(100)`, then `completed` carrying the thumbnail URL list. -/
theorem C4_amended_happy_image_events (name fmt : String) (sz : Nat) :
    (workerAttemptEvents (happyImageEnv name fmt (sz + 1)) freshJob).1 =
      [Ev.active, Ev.progress 10, Ev.progress 20, Ev.progress 30, Ev.progress 40,
       Ev.progress 80, Ev.progress 90, Ev.progress 100,
       Ev.completed ["/uploads/thumbnails/" ++ name]] := by
  simp [workerAttemptEvents, processThumbnailJob, happyImageEnv, processImageThumbnail]

/-- Enumeration of every `updateProgress` sequence one attempt of
`processThumbnailJob` can report, over all external outcomes. -/
theorem progressCalls_mem (env : AttemptEnv) (j : JobRec) :
    (processThumbnailJob env j).progressCalls ∈
      ([[20], [20, 30], [20, 30, 40], [20, 30, 40, 80],
        [20, 30, 40, 60], [20, 30, 40, 80, 90, 100],
        [20, 30, 40, 60, 80, 90, 100]] : List (List Nat)) := by
  obtain ⟨dirO, fp, kind, ⟨iex, iprobe, ienc, isz⟩, ⟨vff, vres, vsz, vcl⟩, fn, tnow, tid⟩ := env
  cases dirO with
  | error e => simp [processThumbnailJob]
  | ok u =>
    cases kind with
    | other s => simp [processThumbnailJob]
    | image =>
      cases iex
      · simp [processThumbnailJob, processImageThumbnail]
      · rcases iprobe with e | fmt
        · simp [processThumbnailJob, processImageThumbnail]
        · rcases ienc with e2 | u2
          · simp [processThumbnailJob, processImageThumbnail]
          · by_cases hz : isz = 0 <;>
              simp [processThumbnailJob, processImageThumbnail, hz]
    | video =>
      rcases vff with ⟨c, s⟩ | _ | m
      · rcases c with _ | c
        · rcases vres with e2 | u2 <;>
            simp [processThumbnailJob, processVideoThumbnail, extractVideoFrame]
        · simp [processThumbnailJob, processVideoThumbnail, extractVideoFrame]
      · simp [processThumbnailJob, processVideoThumbnail, extractVideoFrame]
      · simp [processThumbnailJob, processVideoThumbnail, extractVideoFrame]

/-- Claim C8: within any single processing attempt — whatever the file kind
(image or video path) and whatever the external outcomes — the sequence of
progress values reported through the progress callback (the worker's
initial 10 followed by the processor's reports) is monotonically
non-decreasing and never 0; progress is set to 0 only by the retry reset. -/
theorem C8_progress_monotone (env : AttemptEnv) (j : JobRec) :
    List.Chain' (· ≤ ·) (10 :: (processThumbnailJob env j).progressCalls) ∧
    (∀ v ∈ 10 :: (processThumbnailJob env j).progressCalls, 0 < v) ∧
    (∀ r : JobRec, (resetJobRec r).progress = 0) := by
  have h := progressCalls_mem env j
  simp only [List.mem_cons, List.not_mem_nil, or_false] at h
  refine ⟨?_, ?_, fun r => rfl⟩ <;>
    rcases h with h | h | h | h | h | h | h <;> rw [h] <;>
      simp [List.chain'_cons]

/-- Witness for `C8_progress_monotone`: there are no proposition hypotheses
to discharge, but we record the concrete happy image attempt. -/
theorem C8_progress_monotone_witness :
    List.Chain' (· ≤ ·)
      (10 :: (processThumbnailJob (happyImageEnv "t.jpg" "jpeg" 100) freshJob).progressCalls) :=
  (C8_progress_monotone (happyImageEnv "t.jpg" "jpeg" 100) freshJob).1

/-- Dichotomy of one `processThumbnailJob` attempt: either it throws some
error `e`, recording `failed` with `error = e` and the thumbnail list
untouched, or it succeeds, recording `completed` with the thumbnail id
appended — and with the job's prior `error` field left exactly as it was. -/
theorem attempt_cases (env : AttemptEnv) (j : JobRec) :
    (∃ e, (processThumbnailJob env j).result = Except.error e ∧
      (processThumbnailJob env j).record.status = JobStatus.failed ∧
      (processThumbnailJob env j).record.error = some e ∧
      (processThumbnailJob env j).record.thumbnails = j.thumbnails ∧
      (processThumbnailJob env j).record.completedAt = some env.now) ∨
    ((processThumbnailJob env j).result =
        Except.ok ["/uploads/thumbnails/" ++ env.thumbFilename] ∧
      (processThumbnailJob env j).record.status = JobStatus.completed ∧
      (processThumbnailJob env j).record.error = j.error ∧
      (processThumbnailJob env j).record.thumbnails = j.thumbnails ++ [env.thumbId] ∧
      (processThumbnailJob env j).record.progress = 100 ∧
      (processThumbnailJob env j).record.startedAt = some env.now ∧
      (processThumbnailJob env j).record.completedAt = some env.now) := by
  obtain ⟨dirO, fp, kind, ⟨iex, iprobe, ienc, isz⟩, ⟨vff, vres, vsz, vcl⟩, fn, tnow, tid⟩ := env
  cases dirO with
  | error e => left; exact ⟨e, by simp [processThumbnailJob, findByIdAndUpdate]⟩
  | ok u =>
    cases kind with
    | other s =>
      left
      exact ⟨"Unsupported file type: " ++ s, by simp [processThumbnailJob, findByIdAndUpdate]⟩
    | image =>
      cases iex
      · left
        exact ⟨"Failed to process image thumbnail: " ++ ("Input file not found: " ++ fp),
          by simp [processThumbnailJob, processImageThumbnail, findByIdAndUpdate]⟩
      · rcases iprobe with e | fmt
        · left
          exact ⟨"Failed to process image thumbnail: " ++ e,
            by simp [processThumbnailJob, processImageThumbnail, findByIdAndUpdate]⟩
        · rcases ienc with e2 | u2
          · left
            exact ⟨"Failed to process image thumbnail: " ++ e2,
              by simp [processThumbnailJob, processImageThumbnail, findByIdAndUpdate]⟩
          · by_cases hz : isz = 0
            · left
              exact ⟨"Failed to process image thumbnail: Generated thumbnail file is empty",
                by simp [processThumbnailJob, processImageThumbnail, findByIdAndUpdate, hz]⟩
            · right
              simp [processThumbnailJob, processImageThumbnail, findByIdAndUpdate, hz]
    | video =>
      rcases vff with ⟨c, s⟩ | _ | m
      · rcases c with _ | c
        · rcases vres with e2 | u2
          · left
            exact ⟨"Failed to process video thumbnail: " ++ e2,
              by simp [processThumbnailJob, processVideoThumbnail, extractVideoFrame,
                findByIdAndUpdate]⟩
          · right
            simp [processThumbnailJob, processVideoThumbnail, extractVideoFrame,
              findByIdAndUpdate]
        · left
          exact ⟨"Failed to process video thumbnail: "
              ++ ("FFmpeg process exited with code " ++ toString (c + 1) ++ ": " ++ s),
            by simp [processThumbnailJob, processVideoThumbnail, extractVideoFrame,
              findByIdAndUpdate]⟩
      · left
        exact ⟨"Failed to process video thumbnail: FFmpeg process timed out after 60 seconds",
          by simp [processThumbnailJob, processVideoThumbnail, extractVideoFrame,
            findByIdAndUpdate]⟩
      · left
        exact ⟨"Failed to process video thumbnail: "
            ++ ("FFmpeg spawn error: " ++ m
              ++ ". Make sure FFmpeg is installed and accessible."),
          by simp [processThumbnailJob, processVideoThumbnail, extractVideoFrame,
            findByIdAndUpdate]⟩

/-- Claim C2, counterexample: a job that fails on its first attempt (ffmpeg
exits 1) and succeeds on the retry ends with `status = completed` and
exactly one thumbnail, but its `error` field is NOT cleared — the worker
never resets the prior error before a retried attempt, so the final record
violates `error ≠ "" ⇔ status = failed`. -/
theorem C2_counterexample :
    (processThumbnailJob retrySuccessEnv
        (processThumbnailJob failVideoEnv freshJob).record).record.status =
      JobStatus.completed ∧
    (processThumbnailJob retrySuccessEnv
        (processThumbnailJob failVideoEnv freshJob).record).record.error =
      some "Failed to process video thumbnail: FFmpeg process exited with code 1: boom" ∧
    (processThumbnailJob retrySuccessEnv
        (processThumbnailJob failVideoEnv freshJob).record).record.thumbnails.length = 1 := by
  refine ⟨rfl, rfl, rfl⟩

/-- Claim C2 as amended: after a single attempt on a fresh job the invariants
hold — the thumbnails list is non-empty iff `completed`, and `error` is set
iff `failed` — but the worker does not clear the prior `error` before a
retried attempt: a job that fails on its first attempt with error `e` and
succeeds on a retry ends with `status = completed` and exactly one
thumbnail record, yet with `error` still equal to `e`. -/
theorem C2_amended_error_not_cleared (env envR : AttemptEnv) (e : String)
    (urls : List String)
    (h1 : (processThumbnailJob env freshJob).result = Except.error e)
    (h2 : (processThumbnailJob envR
            (processThumbnailJob env freshJob).record).result = Except.ok urls) :
    (∀ env' : AttemptEnv,
      ((processThumbnailJob env' freshJob).record.thumbnails ≠ [] ↔
        (processThumbnailJob env' freshJob).record.status = JobStatus.completed) ∧
      ((processThumbnailJob env' freshJob).record.error ≠ none ↔
        (processThumbnailJob env' freshJob).record.status = JobStatus.failed)) ∧
    (processThumbnailJob envR
        (processThumbnailJob env freshJob).record).record.status = JobStatus.completed ∧
    (processThumbnailJob envR
        (processThumbnailJob env freshJob).record).record.error = some e ∧
    (processThumbnailJob envR
        (processThumbnailJob env freshJob).record).record.thumbnails = [envR.thumbId] := by
  constructor
  · intro env'
    rcases attempt_cases env' freshJob with ⟨e', _, hs, he, hth, _⟩ | ⟨_, hs, he, hth, _⟩
    · rw [hs, he, hth]
      simp [freshJob]
    · rw [hs, he, hth]
      simp [freshJob]
  · rcases attempt_cases env freshJob with ⟨e', hr, _, he, hth, _⟩ | ⟨hr, _, _, _, _⟩
    · have hee : e' = e := by
        rw [h1] at hr
        injection hr with h3
        exact h3.symm
      rcases attempt_cases envR (processThumbnailJob env freshJob).record with
        ⟨e2, hr2, _, _, _, _⟩ | ⟨_, hs2, he2, hth2, _, _, _⟩
      · rw [h2] at hr2
        exact absurd hr2 (by simp)
      · refine ⟨hs2, ?_, ?_⟩
        · rw [he2, he, hee]
        · rw [hth2, hth]
          simp [freshJob]
    · rw [h1] at hr
      exact absurd hr (by simp)

/-- Witness for `C2_amended_error_not_cleared`: the concrete fail-then-retry
pair of attempts `failVideoEnv`, `retrySuccessEnv`. -/
theorem C2_amended_error_not_cleared_witness :
    (processThumbnailJob retrySuccessEnv
        (processThumbnailJob failVideoEnv freshJob).record).record.error =
      some "Failed to process video thumbnail: FFmpeg process exited with code 1: boom" :=
  (C2_amended_error_not_cleared failVideoEnv retrySuccessEnv
    "Failed to process video thumbnail: FFmpeg process exited with code 1: boom"
    ["/uploads/thumbnails/t2.jpg"] rfl rfl).2.2.1

/-- Claim C3, evaluated at the failing input (a failed job retried by its
owner): the route replies 200 `Job queued for retry` and resets the job
(`pending`, progress 0, `error`/`startedAt`/`completedAt` cleared), and a
non-failed job is rejected — but the queue is left empty: the re-enqueue
step the response text promises is absent (the `addThumbnailJob` call is
commented out in the source), so the job is never processed again. -/
theorem C3_retry_resets_but_never_reenqueues :
    (retryJobRoute "alice" 1 retryState).1 = ⟨200, true, "Job queued for retry"⟩ ∧
    (retryJobRoute "alice" 1 retryState).2.jobs =
      [{ id := 1, userId := "alice",
         doc := { status := .pending, progress := 0, thumbnails := [], error := none,
                  startedAt := none, completedAt := none } }] ∧
    (retryJobRoute "alice" 1 retryState).2.queue = [] ∧
    (retryJobRoute "alice" 1
        { retryState with jobs := [{ failedRouteJob with doc := completedJobEx }] }).1 =
      ⟨400, false, "Only failed jobs can be retried"⟩ := by
  refine ⟨rfl, rfl, rfl, rfl⟩

/-- Claim C9: when every job stored under the requested id belongs to a user
other than the authenticated one, the job-inspection, job-deletion and
job-retry routes all return the literal 404 `Job not found` reply — the
same reply they return when no job with that id exists at all — and leave
the entire server state (jobs, thumbnails, queue) unchanged. -/
theorem C9_ownership_isolation (uid : String) (jobId : Nat) (st : ServerState)
    (h : ∀ j ∈ st.jobs, j.id = jobId → j.userId ≠ uid) :
    getJobRoute uid jobId st = (notFoundResp, st) ∧
    deleteJobRoute uid jobId st = (notFoundResp, st) ∧
    retryJobRoute uid jobId st = (notFoundResp, st) := by
  have hf : findOneByIdAndUser st jobId uid = none := by
    rw [findOneByIdAndUser, List.find?_eq_none]
    intro j hj
    simp only [Bool.and_eq_true, beq_iff_eq, not_and]
    exact h j hj
  refine ⟨?_, ?_, ?_⟩ <;>
    simp [getJobRoute, deleteJobRoute, retryJobRoute, hf]

/-- Witness for `C9_ownership_isolation`: user `bob` probing job 1, which is
owned by `alice`. -/
theorem C9_ownership_isolation_witness :
    getJobRoute "bob" 1 retryState = (notFoundResp, retryState) ∧
    deleteJobRoute "bob" 1 retryState = (notFoundResp, retryState) ∧
    retryJobRoute "bob" 1 retryState = (notFoundResp, retryState) :=
  C9_ownership_isolation "bob" 1 retryState (by decide)

/-- The `uploadedJobs` array the multiple-upload loop accumulates is exactly
one entry per accepted part, in order. -/
theorem multipleUploadLoop_jobs (parts : List UploadPart) :
    (multipleUploadLoop parts).1 = (parts.filter acceptPart).map mkEntry := by
  induction parts with
  | nil => rfl
  | cons p rest ih =>
    by_cases ht : typeOk p
    · by_cases hs : MAX_FILE_SIZE < p.savedSize
      · have hsz : ¬ p.savedSize ≤ MAX_FILE_SIZE := Nat.not_le.mpr hs
        simp [multipleUploadLoop, ht, hs, acceptPart, hsz, ih]
      · have hsz : p.savedSize ≤ MAX_FILE_SIZE := Nat.not_lt.mp hs
        simp [multipleUploadLoop, ht, hs, acceptPart, hsz, ih]
    · simp [multipleUploadLoop, ht, acceptPart, ih]

/-- Replaying the multiple-upload loop's disk actions over any starting
directory contents disjoint from the parts' fresh names leaves exactly the
accepted parts' files appended: a rejected MIME type writes nothing, and an
oversize file's save is cancelled by its immediate unlink. -/
theorem applyOps_loop (parts : List UploadPart) (disk : List String)
    (hnd : (parts.map UploadPart.uniqueName).Nodup)
    (hdisj : ∀ n ∈ disk, n ∉ parts.map UploadPart.uniqueName) :
    applyOps disk (multipleUploadLoop parts).2 =
      disk ++ (parts.filter acceptPart).map UploadPart.uniqueName := by
  induction parts generalizing disk with
  | nil => simp [multipleUploadLoop, applyOps]
  | cons p rest ih =>
    rw [List.map_cons, List.nodup_cons] at hnd
    obtain ⟨hp, hrest⟩ := hnd
    have hdisj' : ∀ n ∈ disk, n ∉ rest.map UploadPart.uniqueName := by
      intro n hn hmem
      exact hdisj n hn (by simp [hmem])
    have hne : ∀ n ∈ disk, n ≠ p.uniqueName := by
      intro n hn heq
      exact hdisj n hn (by simp [heq])
    by_cases ht : typeOk p
    · by_cases hs : MAX_FILE_SIZE < p.savedSize
      · have hsz : ¬ p.savedSize ≤ MAX_FILE_SIZE := Nat.not_le.mpr hs
        have hclean : (disk ++ [p.uniqueName]).filter
            (fun m => m != p.uniqueName) = disk := by
          rw [List.filter_append]
          have h1 : disk.filter (fun m => m != p.uniqueName) = disk :=
            List.filter_eq_self.mpr (fun m hm => bne_iff_ne.mpr (hne m hm))
          have h2 : [p.uniqueName].filter (fun m => m != p.uniqueName) = [] := by
            simp
          rw [h1, h2, List.append_nil]
        have hloop : (multipleUploadLoop (p :: rest)).2 =
            DiskOp.save p.uniqueName :: DiskOp.unlink p.uniqueName ::
              (multipleUploadLoop rest).2 := by
          simp [multipleUploadLoop, ht, hs]
        rw [hloop]
        show applyOps ((disk ++ [p.uniqueName]).filter (fun m => m != p.uniqueName))
          (multipleUploadLoop rest).2 = _
        rw [hclean, ih disk hrest hdisj']
        have : acceptPart p = false := by simp [acceptPart, hsz]
        simp [this]
      · have hsz : p.savedSize ≤ MAX_FILE_SIZE := Nat.not_lt.mp hs
        have hloop : (multipleUploadLoop (p :: rest)).2 =
            DiskOp.save p.uniqueName :: (multipleUploadLoop rest).2 := by
          simp [multipleUploadLoop, ht, hs]
        rw [hloop]
        show applyOps (disk ++ [p.uniqueName]) (multipleUploadLoop rest).2 = _
        have hdisj2 : ∀ n ∈ disk ++ [p.uniqueName],
            n ∉ rest.map UploadPart.uniqueName := by
          intro n hn
          rcases List.mem_append.mp hn with hn | hn
          · exact hdisj' n hn
          · rw [List.mem_singleton.mp hn]
            exact hp
        rw [ih (disk ++ [p.uniqueName]) hrest hdisj2]
        have : acceptPart p = true := by simp [acceptPart, ht, hsz]
        simp [this]
    · have hloop : (multipleUploadLoop (p :: rest)).2 =
          (multipleUploadLoop rest).2 := by
        simp [multipleUploadLoop, ht]
      rw [hloop, ih disk hrest hdisj']
      have : acceptPart p = false := by simp [acceptPart, ht]
      simp [this]

/-- Claim C10: the multiple-file upload never aborts on a bad file — for any
sequence of parts (with the generated storage names fresh), the request
replies 201 success, the response lists exactly one job per accepted part
(whitelisted MIME type and on-disk size within `MAX_FILE_SIZE`), a
non-whitelisted part is skipped before any disk write, and an oversize part
is deleted from disk again, so the directory ends up holding exactly the
accepted parts' files. -/
theorem C10_batch_upload_isolation (parts : List UploadPart)
    (h : (parts.map UploadPart.uniqueName).Nodup) :
    (multipleUploadResp parts).statusCode = 201 ∧
    (multipleUploadResp parts).success = true ∧
    (multipleUploadLoop parts).1 = (parts.filter acceptPart).map mkEntry ∧
    applyOps [] (multipleUploadLoop parts).2 =
      (parts.filter acceptPart).map UploadPart.uniqueName := by
  refine ⟨rfl, rfl, multipleUploadLoop_jobs parts, ?_⟩
  have hal := applyOps_loop parts [] h (by simp)
  simpa using hal

/-- Witness for `C10_batch_upload_isolation`: a batch of three parts — an
accepted JPEG, a rejected `application/octet-stream` file, and an oversize
PNG — yields one job and one file on disk. -/
theorem C10_batch_upload_isolation_witness :
    (multipleUploadLoop [partA, partB, partC]).1 = [mkEntry partA] ∧
    applyOps [] (multipleUploadLoop [partA, partB, partC]).2 = ["u1.jpg"] := by
  have h := C10_batch_upload_isolation [partA, partB, partC] (by decide)
  refine ⟨?_, ?_⟩
  · rw [h.2.2.1]
    decide
  · rw [h.2.2.2]
    decide

end ThumbGen
